/-
Verification of the Todo API's authentication and authorization subsystem.

This file is a shallow embedding, in Lean 4, of the security-relevant parts
of the service implemented in `src/main.py` and `src/config.py`:

* configuration loading and startup validation (`config.py`),
* input validation (`validate_password_strength`, `validate_email_format`,
  `validate_username`),
* the credential store operations (`get_user_by_username`, `get_user_by_email`,
  `create_user_in_db`) over an explicit list-of-rows database state,
* authentication and JWT issuance/verification (`authenticate_user`,
  `create_access_token`, `get_current_user`, `login`),
* per-user todo CRUD (`get_todo_from_db`, `create_todo_in_db`,
  `update_todo_in_db`, `delete_todo_from_db` and the route handlers).

Conventions of the embedding:

* A raised `HTTPException(status_code, detail)` is modelled as
  `Except.error (HTTPError.mk status_code detail)`.
* The SQLite tables are modelled as `List User` / `List Todo` values threaded
  explicitly through the functions; `WHERE id = ? AND user_id = ?` filters
  become boolean predicates over the rows.
* bcrypt hashing is kept abstract: functions that hash or verify passwords
  are parameterized by the hash/verify function, since no claim depends on
  properties of bcrypt itself beyond "verification either succeeds or fails".
* A JWT is modelled as its decoded content: either a well-formed token
  carrying a payload together with the secret and algorithm it was signed
  with, or an un-decodable blob.  `jose.jwt.decode` checks the signature
  (here: that secret and algorithm match) and then rejects expired tokens
  (`exp < now`, matching jose's `_validate_exp` with zero leeway).
* Wall-clock instants are natural numbers (seconds); `datetime.utcnow()`
  becomes an explicit `now` parameter, and non-deterministic fresh values
  (`uuid.uuid4()`, the `created_at` timestamp) become explicit parameters.
-/
import Mathlib

namespace TodoApi

/-- Application settings (`config.py`, class `Settings`).  Only the fields the
verified code paths consume are carried. -/
structure Settings where
  secret_key : String
  algorithm : String
  access_token_expire_minutes : Nat
  debug : Bool
  environment : String
  min_password_length : Nat
deriving DecidableEq, Repr

/-- The default values of `Settings` in `config.py` (used when no environment
variable overrides them). -/
def defaultSettings : Settings where
  secret_key := "fallback-secret-key-change-in-production"
  algorithm := "HS256"
  access_token_expire_minutes := 30
  debug := true
  environment := "development"
  min_password_length := 8

/-- An `HTTPException(status_code=…, detail=…)` raised by the application. -/
structure HTTPError where
  status_code : Nat
  detail : String
deriving DecidableEq, Repr

deriving instance DecidableEq for Except

/-- ASCII lowercasing of one character — the effect of Python's
`str.lower()` on the ASCII environment names compared here. -/
def lowerChar (c : Char) : Char :=
  if 'A' ≤ c ∧ c ≤ 'Z' then Char.ofNat (c.toNat + 32) else c

/-- `config.py`, `is_production`: the environment string, lowercased,
compares equal to `"production"`. -/
def is_production (s : Settings) : Bool :=
  s.environment.toList.map lowerChar == "production".toList

/-- The three placeholder secret keys rejected in production
(`config.py`, `validate_secret_key`). -/
def placeholder_secret_keys : List String :=
  [ "your-super-secret-key-change-this-in-production-minimum-32-characters"
  , "dev-key-change-in-production-abc123def456ghi789jkl012mno345pqr"
  , "fallback-secret-key-change-in-production" ]

/-- `config.py`, `validate_secret_key`: in production the secret must be at
least 32 characters long and must not be one of the known placeholders; a
violation raises `ValueError` (modelled as `Except.error message`).  Outside
production the function does nothing. -/
def validate_secret_key (s : Settings) : Except String Unit :=
  if is_production s then
    if s.secret_key.length < 32 then
      .error "SECRET_KEY must be at least 32 characters in production"
    else if s.secret_key ∈ placeholder_secret_keys then
      .error "Must change default SECRET_KEY in production"
    else
      .ok ()
  else
    .ok ()

/-- `config.py`, `validate_settings`: runs `validate_secret_key` and then two
environment-independent sanity checks.  `main.py` calls this at module import
time (line 28), before the application object is even constructed, so an
error here prevents the process from starting. -/
def validate_settings (s : Settings) : Except String Unit :=
  match validate_secret_key s with
  | .error e => .error e
  | .ok _ =>
    if s.min_password_length < 6 then
      .error "MIN_PASSWORD_LENGTH should be at least 6 characters"
    else if s.access_token_expire_minutes < 1 then
      .error "ACCESS_TOKEN_EXPIRE_MINUTES must be positive"
    else
      .ok ()

/-- `main.py`, `validate_password_strength`: length check against the
configured minimum, then `re.search(r"\d", …)` (at least one digit), then
`re.search(r"[a-zA-Z]", …)` (at least one ASCII letter); the first failing
check raises a 400 with its specific message. -/
def validate_password_strength (s : Settings) (password : String) :
    Except HTTPError Unit :=
  if password.length < s.min_password_length then
    .error ⟨400, "Password must be at least " ++ toString s.min_password_length
                   ++ " characters long"⟩
  else if !(password.toList.any Char.isDigit) then
    .error ⟨400, "Password must contain at least one number"⟩
  else if !(password.toList.any Char.isAlpha) then
    .error ⟨400, "Password must contain at least one letter"⟩
  else
    .ok ()

/-- Character class `[a-zA-Z0-9._%+-]` of the local part of the email
regex in `main.py`, `validate_email_format`. -/
def emailLocalChar (c : Char) : Bool :=
  c.isAlphanum || c = '.' || c = '_' || c = '%' || c = '+' || c = '-'

/-- Character class `[a-zA-Z0-9.-]` of the domain part of the email regex. -/
def emailDomainChar (c : Char) : Bool :=
  c.isAlphanum || c = '.' || c = '-'

/-- Whether all characters of `cs` in the half-open index range `[a, b)`
satisfy `p`. -/
def sliceAll (cs : List Char) (a b : Nat) (p : Char → Bool) : Bool :=
  ((cs.drop a).take (b - a)).all p

/-- The language of `main.py`'s email regex
`^[a-zA-Z0-9._%+-]+@[a-zA-Z0-9.-]+\.[a-zA-Z]\x7b2,\x7d$`: there are positions
`i < j` such that the characters before `i` are a nonempty local part, the
character at `i` is `@`, the characters strictly between `i` and `j` are a
nonempty domain part, the character at `j` is `.`, and at least two
characters follow `j`, all ASCII letters. -/
def matches_email (email : String) : Bool :=
  let cs := email.toList
  (List.range cs.length).any fun i =>
    (List.range cs.length).any fun j =>
      decide (0 < i) && decide (i < j) &&
      sliceAll cs 0 i emailLocalChar &&
      (cs.getD i ' ' == '@') &&
      decide (i + 1 < j) &&
      sliceAll cs (i + 1) j emailDomainChar &&
      (cs.getD j ' ' == '.') &&
      decide (2 ≤ cs.length - (j + 1)) &&
      (cs.drop (j + 1)).all Char.isAlpha

/-- `main.py`, `validate_email_format`: a 400 when the email does not match
the regex. -/
def validate_email_format (email : String) : Except HTTPError Unit :=
  if matches_email email then .ok ()
  else .error ⟨400, "Invalid email format"⟩

/-- `main.py`, `validate_username`: at least 3 characters, at most 50, and
only `[a-zA-Z0-9_]`; the first failing check raises a 400 with its specific
message. -/
def validate_username (username : String) : Except HTTPError Unit :=
  if username.length < 3 then
    .error ⟨400, "Username must be at least 3 characters long"⟩
  else if username.length > 50 then
    .error ⟨400, "Username must be less than 50 characters"⟩
  else if !(username.toList.all fun c => c.isAlphanum || c = '_') then
    .error ⟨400, "Username can only contain letters, numbers, and underscores"⟩
  else
    .ok ()

/-- A row of the `users` table / the internal `User` model in `main.py`
(id, username, email, hashed_password, created_at). -/
structure User where
  id : String
  username : String
  email : String
  hashed_password : String
  created_at : String
deriving DecidableEq, Repr

/-- The `UserCreate` registration request model (username, email, password). -/
structure UserCreate where
  username : String
  email : String
  password : String
deriving DecidableEq, Repr

/-- The `UserResponse` model returned by `/register`: exactly the fields
`id`, `username`, `email`, `created_at` — no password and no hash. -/
structure UserResponse where
  id : String
  username : String
  email : String
  created_at : String
deriving DecidableEq, Repr

/-- `main.py`, `get_user_by_username`: `SELECT … FROM users WHERE
username = ?` followed by `fetchone`, i.e. the first row whose username
matches, if any. -/
def get_user_by_username (db : List User) (username : String) : Option User :=
  db.find? fun u => u.username == username

/-- `main.py`, `get_user_by_email`: first row whose email matches, if any. -/
def get_user_by_email (db : List User) (email : String) : Option User :=
  db.find? fun u => u.email == email

/-- Errors that can escape `create_user_in_db` / `register`: an
`HTTPException` the code raises deliberately, or a `sqlite3.IntegrityError`
escaping from the `INSERT` (no handler in `main.py` catches it, so it
surfaces to the client as a generic 500 internal error). -/
inductive RegError where
  | http (e : HTTPError)
  | integrity
deriving DecidableEq, Repr

/-- The `INSERT INTO users …` statement as executed by SQLite: the schema's
`UNIQUE` constraints on `username` and `email` (see `init_database`) reject
the row with an `IntegrityError` when either value is already present;
otherwise the row is appended. -/
def sqlite_insert_user (db : List User) (u : User) : Except Unit (List User) :=
  if db.any (fun v => v.username == u.username || v.email == u.email) then
    .error ()
  else
    .ok (db ++ [u])

/-- `main.py`, `create_user_in_db`.  `hash` stands for
`get_password_hash` (bcrypt), `new_id` for `str(uuid.uuid4())` and `nowIso`
for `datetime.utcnow().isoformat()`.  The pre-checks read the store state
`dbCheck`; the `INSERT` executes against the state `dbInsert`, which may
differ from `dbCheck` when another request commits between the pre-check
and the insert (the sequential case is `dbInsert = dbCheck`).  A constraint
violation at insert time is not caught by the code, so it surfaces as
`RegError.integrity`, not as one of the 400 `HTTPException`s. -/
def create_user_in_db (hash : String → String) (new_id nowIso : String)
    (dbCheck dbInsert : List User) (user : UserCreate) :
    Except RegError (User × List User) :=
  match get_user_by_username dbCheck user.username with
  | some _ => .error (.http ⟨400, "Username already registered"⟩)
  | none =>
    match get_user_by_email dbCheck user.email with
    | some _ => .error (.http ⟨400, "Email already registered"⟩)
    | none =>
      let new_user : User :=
        ⟨new_id, user.username, user.email, hash user.password, nowIso⟩
      match sqlite_insert_user dbInsert new_user with
      | .error _ => .error .integrity
      | .ok db2 => .ok (new_user, db2)

/-- `main.py`, `register`: validates username format, then email format,
then password strength, then creates the user; on success answers with a
`UserResponse` built from the stored row (id, username, email, created_at —
the hash is deliberately left out). -/
def register (hash : String → String) (new_id nowIso : String) (s : Settings)
    (dbCheck dbInsert : List User) (user : UserCreate) :
    Except RegError (UserResponse × List User) :=
  match validate_username user.username with
  | .error e => .error (.http e)
  | .ok _ =>
    match validate_email_format user.email with
    | .error e => .error (.http e)
    | .ok _ =>
      match validate_password_strength s user.password with
      | .error e => .error (.http e)
      | .ok _ =>
        match create_user_in_db hash new_id nowIso dbCheck dbInsert user with
        | .error e => .error e
        | .ok (db_user, db2) =>
          .ok (⟨db_user.id, db_user.username, db_user.email,
                db_user.created_at⟩, db2)

/-- `main.py`, `authenticate_user`.  `verify` stands for `verify_password`
(bcrypt verification of a plain password against a stored hash).  Absent
user and wrong password both return `none`. -/
def authenticate_user (verify : String → String → Bool) (db : List User)
    (username password : String) : Option User :=
  match get_user_by_username db username with
  | none => none
  | some user =>
    if verify password user.hashed_password then some user else none

/-- The decoded claims of a JWT issued by this service: the `sub` claim
(absent when the payload carried none) and the `exp` claim (seconds). -/
structure JwtPayload where
  sub : Option String
  exp : Nat
deriving DecidableEq, Repr

/-- A bearer token as presented by a client: either a structurally valid
JWT — its payload together with the secret and algorithm that signed it —
or an un-decodable blob. -/
inductive JwtToken where
  | signed (payload : JwtPayload) (secret : String) (alg : String)
  | malformed (raw : String)
deriving DecidableEq, Repr

/-- The reasons `jose.jwt.decode` raises (all subclasses of `JWTError`). -/
inductive JWTFailure where
  | malformed
  | badSignature
  | expired
deriving DecidableEq, Repr

/-- `jose.jwt.decode(token, secret, algorithms=[alg])` as called by
`get_current_user`: un-decodable input fails as malformed; a signature made
with a different secret or algorithm fails verification; then the `exp`
claim is checked against the current time (expired iff `exp < now`,
jose's `_validate_exp` with zero leeway). -/
def jwt_decode (token : JwtToken) (secret alg : String) (now : Nat) :
    Except JWTFailure JwtPayload :=
  match token with
  | .malformed _ => .error .malformed
  | .signed payload tsecret talg =>
    if tsecret == secret && talg == alg then
      if payload.exp < now then .error .expired else .ok payload
    else
      .error .badSignature

/-- `main.py`, `create_access_token`: takes the payload data (only the
`sub` claim is ever passed), adds `exp = now + expires_delta` (seconds), or
`now + 15 * 60` when no delta is given, and signs with the configured
secret and algorithm. -/
def create_access_token (s : Settings) (sub : Option String)
    (expires_delta : Option Nat) (now : Nat) : JwtToken :=
  let expire :=
    match expires_delta with
    | some d => now + d
    | none => now + 15 * 60
  .signed ⟨sub, expire⟩ s.secret_key s.algorithm

/-- The single `HTTPException` `get_current_user` raises on every failure
path. -/
def credentials_exception : HTTPError :=
  ⟨401, "Could not validate credentials"⟩

/-- `main.py`, `get_current_user`: decode the bearer token; any `JWTError`
(malformed, bad signature, expired), a missing `sub` claim, and a subject
with no row in the users table all raise the same `credentials_exception`. -/
def get_current_user (s : Settings) (db : List User) (token : JwtToken)
    (now : Nat) : Except HTTPError User :=
  match jwt_decode token s.secret_key s.algorithm now with
  | .error _ => .error credentials_exception
  | .ok payload =>
    match payload.sub with
    | none => .error credentials_exception
    | some username =>
      match get_user_by_username db username with
      | none => .error credentials_exception
      | some user => .ok user

/-- The `Token` response model of `/login`. -/
structure Token where
  access_token : JwtToken
  token_type : String
deriving DecidableEq, Repr

/-- `main.py`, `login`: authenticate; on failure raise 401 "Incorrect
username or password"; on success issue a token for `sub = username` with
the configured TTL (minutes, here converted to seconds). -/
def login (verify : String → String → Bool) (s : Settings) (db : List User)
    (username password : String) (now : Nat) : Except HTTPError Token :=
  match authenticate_user verify db username password with
  | none =>
    .error ⟨401, "Incorrect username or password"⟩
  | some user =>
    .ok ⟨create_access_token s (some user.username)
          (some (s.access_token_expire_minutes * 60)) now, "bearer"⟩

/-- A row of the `todos` table / the `Todo` response model in `main.py`. -/
structure Todo where
  id : String
  title : String
  description : Option String
  completed : Bool
  user_id : String
deriving DecidableEq, Repr

/-- The `TodoCreate` request model.  As in the Pydantic `TodoBase`,
`description` defaults to `None` and `completed` defaults to `False` when
the client omits them. -/
structure TodoCreate where
  title : String
  description : Option String := none
  completed : Bool := false
deriving DecidableEq, Repr

/-- The row predicate of `WHERE id = ? AND user_id = ?`, shared by the
get/update/delete queries. -/
def todoOwnedBy (todo_id user_id : String) (t : Todo) : Bool :=
  t.id == todo_id && t.user_id == user_id

/-- `main.py`, `get_todo_from_db`: `SELECT … WHERE id = ? AND user_id = ?`
followed by `fetchone`. -/
def get_todo_from_db (db : List Todo) (todo_id user_id : String) :
    Option Todo :=
  db.find? (todoOwnedBy todo_id user_id)

/-- `main.py`, `create_todo_in_db`: builds the new row from the input —
copying the client-supplied `completed` flag — stamps it with the
authenticated user's id and the fresh uuid `new_id`, inserts it, and
returns it alongside the new store state. -/
def create_todo_in_db (db : List Todo) (todo : TodoCreate)
    (new_id user_id : String) : Todo × List Todo :=
  let new_todo : Todo :=
    ⟨new_id, todo.title, todo.description, todo.completed, user_id⟩
  (new_todo, db ++ [new_todo])

/-- The effect of the `UPDATE … SET title = ?, description = ?,
completed = ?` statement on one matched row. -/
def applyTodoUpdate (todo_update : TodoCreate) (t : Todo) : Todo :=
  { t with
    title := todo_update.title
    description := todo_update.description
    completed := todo_update.completed }

/-- `main.py`, `update_todo_in_db`: `UPDATE todos SET … WHERE id = ? AND
user_id = ?`; when `cursor.rowcount = 0` (no row matched) the result is
`none`, otherwise the updated row is rebuilt from the inputs. -/
def update_todo_in_db (db : List Todo) (todo_id : String)
    (todo_update : TodoCreate) (user_id : String) :
    Option Todo × List Todo :=
  let db2 := db.map fun t =>
    if todoOwnedBy todo_id user_id t then applyTodoUpdate todo_update t
    else t
  if db.any (todoOwnedBy todo_id user_id) then
    (some ⟨todo_id, todo_update.title, todo_update.description,
           todo_update.completed, user_id⟩, db2)
  else
    (none, db2)

/-- `main.py`, `delete_todo_from_db`: `DELETE FROM todos WHERE id = ? AND
user_id = ?`; returns whether `cursor.rowcount > 0`. -/
def delete_todo_from_db (db : List Todo) (todo_id user_id : String) :
    Bool × List Todo :=
  (db.any (todoOwnedBy todo_id user_id),
   db.filter fun t => !(todoOwnedBy todo_id user_id t))

/-- `main.py`, route `GET /todos/{todo_id}` (`get_todo`): a miss — the id
is absent or the row belongs to another user — raises 404
"Todo not found". -/
def get_todo (db : List Todo) (todo_id : String) (current_user : User) :
    Except HTTPError Todo :=
  match get_todo_from_db db todo_id current_user.id with
  | none => .error ⟨404, "Todo not found"⟩
  | some todo => .ok todo

/-- `main.py`, route `PUT /todos/{todo_id}` (`update_todo`); also returns
the store state after the call. -/
def update_todo (db : List Todo) (todo_id : String)
    (todo_update : TodoCreate) (current_user : User) :
    Except HTTPError Todo × List Todo :=
  match update_todo_in_db db todo_id todo_update current_user.id with
  | (none, db2) => (.error ⟨404, "Todo not found"⟩, db2)
  | (some updated, db2) => (.ok updated, db2)

/-- `main.py`, route `DELETE /todos/{todo_id}` (`delete_todo`); the payload
on success is the literal message the handler returns. -/
def delete_todo (db : List Todo) (todo_id : String) (current_user : User) :
    Except HTTPError String × List Todo :=
  match delete_todo_from_db db todo_id current_user.id with
  | (false, db2) => (.error ⟨404, "Todo not found"⟩, db2)
  | (true, db2) => (.ok "Todo deleted successfully", db2)

/-! ## Theorems -/

/-- Claim C6: password strength validation applies its rules in order with
the first failure winning — length at least the configured minimum (default
8) with a length-violation error, then at least one digit with a
missing-digit error, then at least one letter with a missing-letter error —
and a password passing all three checks is accepted. -/
theorem C6_password_strength_order (s : Settings) (p : String) :
    defaultSettings.min_password_length = 8 ∧
    (p.length < s.min_password_length →
      validate_password_strength s p =
        .error ⟨400, "Password must be at least "
                       ++ toString s.min_password_length
                       ++ " characters long"⟩) ∧
    (s.min_password_length ≤ p.length →
      p.toList.any Char.isDigit = false →
      validate_password_strength s p =
        .error ⟨400, "Password must contain at least one number"⟩) ∧
    (s.min_password_length ≤ p.length →
      p.toList.any Char.isDigit = true →
      p.toList.any Char.isAlpha = false →
      validate_password_strength s p =
        .error ⟨400, "Password must contain at least one letter"⟩) ∧
    (s.min_password_length ≤ p.length →
      p.toList.any Char.isDigit = true →
      p.toList.any Char.isAlpha = true →
      validate_password_strength s p = .ok ()) := by
  refine ⟨rfl, fun h1 => ?_, fun h1 h2 => ?_, fun h1 h2 h3 => ?_,
          fun h1 h2 h3 => ?_⟩
  · unfold validate_password_strength
    rw [if_pos h1]
  · unfold validate_password_strength
    rw [if_neg (Nat.not_lt.mpr h1), h2]
    rfl
  · unfold validate_password_strength
    rw [if_neg (Nat.not_lt.mpr h1), h2, h3]
    rfl
  · unfold validate_password_strength
    rw [if_neg (Nat.not_lt.mpr h1), h2, h3]
    rfl

/-- Witness for C6 at the spec's concrete examples, with the default
settings: `"short1"` is rejected for length, `"alllettersnodigit"` for the
missing digit, `"12345678"` for the missing letter, and `"abc12345"` is
accepted. -/
theorem C6_password_strength_order_witness :
    validate_password_strength defaultSettings "short1" =
      .error ⟨400, "Password must be at least 8 characters long"⟩ ∧
    validate_password_strength defaultSettings "alllettersnodigit" =
      .error ⟨400, "Password must contain at least one number"⟩ ∧
    validate_password_strength defaultSettings "12345678" =
      .error ⟨400, "Password must contain at least one letter"⟩ ∧
    validate_password_strength defaultSettings "abc12345" = .ok () := by
  refine ⟨?_, ?_, ?_, ?_⟩
  · exact (C6_password_strength_order defaultSettings "short1").2.1
      (by decide)
  · exact (C6_password_strength_order defaultSettings
      "alllettersnodigit").2.2.1 (by decide) (by decide)
  · exact (C6_password_strength_order defaultSettings "12345678").2.2.2.1
      (by decide) (by decide) (by decide)
  · exact (C6_password_strength_order defaultSettings "abc12345").2.2.2.2
      (by decide) (by decide) (by decide)

/-- Claim C9: in production mode, startup validation (run at module import,
before the app starts serving) fails when the configured secret is shorter
than 32 characters or is one of the known placeholder values; outside
production the secret checks are skipped. -/
theorem C9_secret_key_startup_validation (s : Settings) :
    (is_production s = true → s.secret_key.length < 32 →
      validate_settings s =
        .error "SECRET_KEY must be at least 32 characters in production") ∧
    (is_production s = true → 32 ≤ s.secret_key.length →
      s.secret_key ∈ placeholder_secret_keys →
      validate_settings s =
        .error "Must change default SECRET_KEY in production") ∧
    (is_production s = false → validate_secret_key s = .ok ()) := by
  refine ⟨fun h1 h2 => ?_, fun h1 h2 h3 => ?_, fun h1 => ?_⟩
  · have hsk : validate_secret_key s =
        .error "SECRET_KEY must be at least 32 characters in production" := by
      unfold validate_secret_key
      rw [h1, if_pos rfl, if_pos h2]
    unfold validate_settings
    rw [hsk]
  · have hsk : validate_secret_key s =
        .error "Must change default SECRET_KEY in production" := by
      unfold validate_secret_key
      rw [h1, if_pos rfl, if_neg (Nat.not_lt.mpr h2), if_pos h3]
    unfold validate_settings
    rw [hsk]
  · unfold validate_secret_key
    rw [h1]
    rfl

/-- A production configuration with a 5-character secret. -/
def prodShortSecretSettings : Settings :=
  { defaultSettings with environment := "production", secret_key := "short" }

/-- A production configuration still carrying the default placeholder
secret (40 characters). -/
def prodPlaceholderSettings : Settings :=
  { defaultSettings with environment := "production" }

/-- Witness for C9: with a production environment, the 5-character secret
`"short"` is rejected for length, the 40-character default placeholder is
rejected as a placeholder, and in the development environment the same
placeholder secret passes the secret checks. -/
theorem C9_secret_key_startup_validation_witness :
    validate_settings prodShortSecretSettings =
      .error "SECRET_KEY must be at least 32 characters in production" ∧
    validate_settings prodPlaceholderSettings =
      .error "Must change default SECRET_KEY in production" ∧
    validate_secret_key defaultSettings = .ok () := by
  refine ⟨?_, ?_, ?_⟩
  · exact (C9_secret_key_startup_validation prodShortSecretSettings).1
      (by decide) (by decide)
  · exact (C9_secret_key_startup_validation prodPlaceholderSettings).2.1
      (by decide) (by decide) (by decide)
  · exact (C9_secret_key_startup_validation defaultSettings).2.2 (by decide)

/-- Claim C10: `create_todo_in_db` copies the client-supplied `completed`
flag into the stored row; the flag defaults to `false` only at the request
model when the client omits it, so a create with `completed := true` yields
a todo that is already completed. -/
theorem C10_create_copies_completed_flag (db : List Todo)
    (todo : TodoCreate) (new_id user_id : String) :
    (create_todo_in_db db todo new_id user_id).1.completed =
      todo.completed ∧
    ({ title := "buy milk" } : TodoCreate).completed = false ∧
    (create_todo_in_db [] { title := "t", completed := true }
      "id1" "u1").1.completed = true :=
  ⟨rfl, rfl, rfl⟩

/-- If no row of `db` has both the requested id and the caller's user id,
the shared `WHERE` predicate is false on every row. -/
theorem todoOwnedBy_eq_false_of_not_owned {db : List Todo}
    {tid uid : String} (h : ∀ t ∈ db, t.id = tid → t.user_id ≠ uid) :
    ∀ t ∈ db, todoOwnedBy tid uid t = false := by
  intro t ht
  unfold todoOwnedBy
  by_cases h1 : t.id = tid
  · simp [h1, h t ht h1]
  · simp [h1]

/-- Mapping a row-transformer guarded by a predicate that holds on no row
leaves the list unchanged (the `UPDATE` statement touches nothing). -/
theorem map_ite_of_all_false {α : Type} {p : α → Bool} {f : α → α} :
    ∀ l : List α, (∀ x ∈ l, p x = false) →
      l.map (fun t => if p t then f t else t) = l
  | [], _ => rfl
  | x :: xs, h => by
    have hx := h x (List.mem_cons_self x xs)
    have ih := map_ite_of_all_false (p := p) (f := f) xs fun y hy =>
      h y (List.mem_cons_of_mem x hy)
    simp [hx, ih]

/-- Keeping the rows a never-matching predicate rejects leaves the list
unchanged (the `DELETE` statement removes nothing). -/
theorem filter_not_of_all_false {α : Type} {p : α → Bool} :
    ∀ l : List α, (∀ x ∈ l, p x = false) →
      (l.filter fun t => !(p t)) = l
  | [], _ => rfl
  | x :: xs, h => by
    have hx := h x (List.mem_cons_self x xs)
    have ih := filter_not_of_all_false (p := p) xs fun y hy =>
      h y (List.mem_cons_of_mem x hy)
    simp [List.filter_cons, hx, ih]

/-- Claim C1: for a caller and a todo id such that no stored todo has both
that id and that owner — the id is absent, or the row belongs to someone
else — `get`, `update` and `delete` all fail with the same 404
"Todo not found" and leave the store untouched; in particular the two
causes produce identical, indistinguishable results. -/
theorem C1_cross_owner_indistinguishable_from_absent (db : List Todo)
    (caller : User) (tid : String) (upd : TodoCreate)
    (h : ∀ t ∈ db, t.id = tid → t.user_id ≠ caller.id) :
    get_todo db tid caller = .error ⟨404, "Todo not found"⟩ ∧
    update_todo db tid upd caller = (.error ⟨404, "Todo not found"⟩, db) ∧
    delete_todo db tid caller = (.error ⟨404, "Todo not found"⟩, db) := by
  have hall := todoOwnedBy_eq_false_of_not_owned h
  have hfind : db.find? (todoOwnedBy tid caller.id) = none :=
    List.find?_eq_none.mpr fun x hx => by simp [hall x hx]
  have hany : db.any (todoOwnedBy tid caller.id) = false := by
    simp only [List.any_eq_false]
    intro x hx
    simp [hall x hx]
  have hmap := map_ite_of_all_false
    (p := todoOwnedBy tid caller.id)
    (f := applyTodoUpdate upd) db hall
  have hfilter := filter_not_of_all_false
    (p := todoOwnedBy tid caller.id) db hall
  refine ⟨?_, ?_, ?_⟩
  · unfold get_todo get_todo_from_db
    rw [hfind]
  · unfold update_todo update_todo_in_db
    simp only [hany, hmap, if_false, Bool.false_eq_true]
  · unfold delete_todo delete_todo_from_db
    simp only [hany, hfilter]

/-- The registered user `alice` as stored (hash of `"abc12345"` under the
concrete hash function `hash₀`). -/
def aliceUser : User :=
  ⟨"u-alice", "alice", "alice@example.com", "hashed:abc12345",
   "2026-01-01T00:00:00"⟩

/-- A todo row owned by the user with id `"u-bob"`. -/
def bobsTodo : Todo :=
  ⟨"t-bob-1", "buy milk", none, false, "u-bob"⟩

/-- Witness for C1: `alice` (id `"u-alice"`) operating on `bob`'s todo id
gets exactly the 404 of a nonexistent id, and the store is unchanged. -/
theorem C1_cross_owner_indistinguishable_from_absent_witness :
    get_todo [bobsTodo] "t-bob-1" aliceUser =
      .error ⟨404, "Todo not found"⟩ ∧
    update_todo [bobsTodo] "t-bob-1" { title := "hijack" } aliceUser =
      (.error ⟨404, "Todo not found"⟩, [bobsTodo]) ∧
    delete_todo [bobsTodo] "t-bob-1" aliceUser =
      (.error ⟨404, "Todo not found"⟩, [bobsTodo]) :=
  C1_cross_owner_indistinguishable_from_absent [bobsTodo] aliceUser
    "t-bob-1" { title := "hijack" } (by decide)

/-- Claim C2: login with a wrong password for an existing user and login
with a nonexistent username fail with the identical 401 error and message,
so no signal distinguishes whether the username exists. -/
theorem C2_login_no_user_enumeration (verify : String → String → Bool)
    (s : Settings) (db : List User) (u₁ p₁ u₂ p₂ : String) (now : Nat)
    (user₁ : User) (h₁ : get_user_by_username db u₁ = some user₁)
    (hv : verify p₁ user₁.hashed_password = false)
    (h₂ : get_user_by_username db u₂ = none) :
    login verify s db u₁ p₁ now =
      .error ⟨401, "Incorrect username or password"⟩ ∧
    login verify s db u₂ p₂ now =
      .error ⟨401, "Incorrect username or password"⟩ ∧
    login verify s db u₁ p₁ now = login verify s db u₂ p₂ now := by
  have hl₁ : login verify s db u₁ p₁ now =
      .error ⟨401, "Incorrect username or password"⟩ := by
    unfold login authenticate_user
    rw [h₁]
    simp [hv]
  have hl₂ : login verify s db u₂ p₂ now =
      .error ⟨401, "Incorrect username or password"⟩ := by
    unfold login authenticate_user
    rw [h₂]
  exact ⟨hl₁, hl₂, hl₁.trans hl₂.symm⟩

/-- The concrete password verifier used in witnesses: a password matches a
stored blob exactly when the blob is `"hashed:" ++ password` (the shape
produced by the concrete `hash₀` below). -/
def verify₀ (password blob : String) : Bool :=
  blob == "hashed:" ++ password

/-- Witness for C2: against a store holding only `alice`, logging in as
`alice` with a wrong password and as the unknown `mallory` produce the
identical 401. -/
theorem C2_login_no_user_enumeration_witness :
    login verify₀ defaultSettings [aliceUser] "alice" "wrongpass" 1000 =
      .error ⟨401, "Incorrect username or password"⟩ ∧
    login verify₀ defaultSettings [aliceUser] "mallory" "anypass" 1000 =
      .error ⟨401, "Incorrect username or password"⟩ ∧
    login verify₀ defaultSettings [aliceUser] "alice" "wrongpass" 1000 =
      login verify₀ defaultSettings [aliceUser] "mallory" "anypass" 1000 :=
  C2_login_no_user_enumeration verify₀ defaultSettings [aliceUser]
    "alice" "wrongpass" "mallory" "anypass" 1000 aliceUser
    (by decide) (by decide) (by decide)

/-- Claim C3: a token issued for a subject with a positive ttl verifies to
exactly that subject at any time strictly before the expiry instant, and
fails with the expired-token error at any time strictly after it. -/
theorem C3_token_ttl_roundtrip (s : Settings) (subject : String)
    (ttl t0 t₁ t₂ : Nat) (_httl : 0 < ttl) (hbefore : t₁ < t0 + ttl)
    (hafter : t0 + ttl < t₂) :
    jwt_decode (create_access_token s (some subject) (some ttl) t0)
        s.secret_key s.algorithm t₁ = .ok ⟨some subject, t0 + ttl⟩ ∧
    jwt_decode (create_access_token s (some subject) (some ttl) t0)
        s.secret_key s.algorithm t₂ = .error .expired := by
  constructor
  · unfold create_access_token jwt_decode
    simp [Nat.not_lt.mpr (Nat.le_of_lt hbefore)]
  · unfold create_access_token jwt_decode
    simp [hafter]

/-- Witness for C3: a token for `alice` issued at time 1000 with a
30-minute ttl verifies at time 2000 and is expired at time 3000. -/
theorem C3_token_ttl_roundtrip_witness :
    jwt_decode (create_access_token defaultSettings (some "alice")
        (some 1800) 1000) defaultSettings.secret_key
        defaultSettings.algorithm 2000 = .ok ⟨some "alice", 2800⟩ ∧
    jwt_decode (create_access_token defaultSettings (some "alice")
        (some 1800) 1000) defaultSettings.secret_key
        defaultSettings.algorithm 3000 = .error .expired :=
  C3_token_ttl_roundtrip defaultSettings "alice" 1800 1000 2000 3000
    (by decide) (by decide) (by decide)

/-- Claim C7: identity resolution on a protected route fails with the one
uniform 401 `credentials_exception` in every failure case — malformed
token, wrong signature (different secret or algorithm), expired token, a
payload without a subject, and a verified subject that no longer exists in
the store — and every error it can ever produce is that same exception, so
the client cannot distinguish the causes. -/
theorem C7_identity_resolution_uniform_error (s : Settings)
    (db : List User) (now : Nat) :
    (∀ raw, get_current_user s db (.malformed raw) now =
        .error credentials_exception) ∧
    (∀ payload tsecret talg,
        (tsecret == s.secret_key && talg == s.algorithm) = false →
        get_current_user s db (.signed payload tsecret talg) now =
          .error credentials_exception) ∧
    (∀ payload, payload.exp < now →
        get_current_user s db
          (.signed payload s.secret_key s.algorithm) now =
          .error credentials_exception) ∧
    (∀ exp, now ≤ exp →
        get_current_user s db
          (.signed ⟨none, exp⟩ s.secret_key s.algorithm) now =
          .error credentials_exception) ∧
    (∀ exp username, now ≤ exp →
        get_user_by_username db username = none →
        get_current_user s db
          (.signed ⟨some username, exp⟩ s.secret_key s.algorithm) now =
          .error credentials_exception) ∧
    (∀ token e, get_current_user s db token now = .error e →
        e = credentials_exception) := by
  refine ⟨fun raw => rfl, fun payload tsecret talg hsig => ?_,
          fun payload hexp => ?_, fun exp hnow => ?_,
          fun exp username hnow huser => ?_, fun token e h => ?_⟩
  · unfold get_current_user jwt_decode
    simp [hsig]
  · unfold get_current_user jwt_decode
    simp [hexp]
  · unfold get_current_user jwt_decode
    simp [Nat.not_lt.mpr hnow]
  · unfold get_current_user jwt_decode
    simp [Nat.not_lt.mpr hnow, huser]
  · unfold get_current_user at h
    repeat' split at h
    all_goals simp_all

/-- Witness for C7: with the default settings and an empty user table, a
malformed token, a token signed with the wrong secret, an expired token,
and a valid token for the absent user `alice` all yield the very same
error. -/
theorem C7_identity_resolution_uniform_error_witness :
    get_current_user defaultSettings [] (.malformed "garbage") 50 =
      .error credentials_exception ∧
    get_current_user defaultSettings []
      (.signed ⟨some "alice", 100⟩ "attacker-secret" "HS256") 50 =
      .error credentials_exception ∧
    get_current_user defaultSettings []
      (.signed ⟨some "alice", 100⟩ defaultSettings.secret_key
        defaultSettings.algorithm) 200 =
      .error credentials_exception ∧
    get_current_user defaultSettings []
      (.signed ⟨some "alice", 100⟩ defaultSettings.secret_key
        defaultSettings.algorithm) 50 =
      .error credentials_exception := by
  refine ⟨?_, ?_, ?_, ?_⟩
  · exact (C7_identity_resolution_uniform_error defaultSettings [] 50).1
      "garbage"
  · exact (C7_identity_resolution_uniform_error defaultSettings [] 50).2.1
      ⟨some "alice", 100⟩ "attacker-secret" "HS256" (by decide)
  · exact (C7_identity_resolution_uniform_error defaultSettings [] 200).2.2.1
      ⟨some "alice", 100⟩ (by decide)
  · exact (C7_identity_resolution_uniform_error
      defaultSettings [] 50).2.2.2.2.1 100 "alice" (by decide) (by decide)

/-- Claim C5: `register` applies its checks in the order username format,
email format, password strength, username uniqueness, email uniqueness;
whichever check fails first determines the reported error, regardless of
the later checks. -/
theorem C5_register_validation_order (hash : String → String)
    (new_id nowIso : String) (s : Settings) (dbC dbI : List User)
    (user : UserCreate) :
    (∀ e, validate_username user.username = .error e →
        register hash new_id nowIso s dbC dbI user = .error (.http e)) ∧
    (∀ e, validate_username user.username = .ok () →
        validate_email_format user.email = .error e →
        register hash new_id nowIso s dbC dbI user = .error (.http e)) ∧
    (∀ e, validate_username user.username = .ok () →
        validate_email_format user.email = .ok () →
        validate_password_strength s user.password = .error e →
        register hash new_id nowIso s dbC dbI user = .error (.http e)) ∧
    (∀ u, validate_username user.username = .ok () →
        validate_email_format user.email = .ok () →
        validate_password_strength s user.password = .ok () →
        get_user_by_username dbC user.username = some u →
        register hash new_id nowIso s dbC dbI user =
          .error (.http ⟨400, "Username already registered"⟩)) ∧
    (∀ u, validate_username user.username = .ok () →
        validate_email_format user.email = .ok () →
        validate_password_strength s user.password = .ok () →
        get_user_by_username dbC user.username = none →
        get_user_by_email dbC user.email = some u →
        register hash new_id nowIso s dbC dbI user =
          .error (.http ⟨400, "Email already registered"⟩)) := by
  refine ⟨fun e h1 => ?_, fun e h1 h2 => ?_, fun e h1 h2 h3 => ?_,
          fun u h1 h2 h3 h4 => ?_, fun u h1 h2 h3 h4 h5 => ?_⟩
  · unfold register create_user_in_db
    simp only [h1]
  · unfold register create_user_in_db
    simp only [h1, h2]
  · unfold register create_user_in_db
    simp only [h1, h2, h3]
  · unfold register create_user_in_db
    simp only [h1, h2, h3, h4]
  · unfold register create_user_in_db
    simp only [h1, h2, h3, h4, h5]

/-- The concrete bcrypt stand-in used in witnesses. -/
def hash₀ (password : String) : String :=
  "hashed:" ++ password

/-- An alternative hash function, used to show responses do not depend on
the hashing. -/
def hashAlt (password : String) : String :=
  "alt:" ++ password

/-- The registration request for `alice` used in witnesses; all three
format/strength checks pass on it. -/
def aliceCreate : UserCreate :=
  ⟨"alice", "alice@example.com", "abc12345"⟩

/-- Witness for C5: a duplicate username is reported as such once the three
format checks pass, and a too-short username is reported by the first
check. -/
theorem C5_register_validation_order_witness :
    register hash₀ "u-new" "2026-01-02T00:00:00" defaultSettings
      [aliceUser] [aliceUser] aliceCreate =
      .error (.http ⟨400, "Username already registered"⟩) ∧
    register hash₀ "u-new" "2026-01-02T00:00:00" defaultSettings [] []
      ⟨"ab", "a@example.com", "abc12345"⟩ =
      .error (.http ⟨400, "Username must be at least 3 characters long"⟩) := by
  constructor
  · exact (C5_register_validation_order hash₀ "u-new"
      "2026-01-02T00:00:00" defaultSettings [aliceUser] [aliceUser]
      aliceCreate).2.2.2.1 aliceUser (by decide) (by decide) (by decide)
      (by decide)
  · exact (C5_register_validation_order hash₀ "u-new"
      "2026-01-02T00:00:00" defaultSettings [] []
      ⟨"ab", "a@example.com", "abc12345"⟩).1 _ (by decide)

/-- Claim C8: the representation returned by a successful registration is
exactly the record of id, username, email and created_at, and it never
depends on the password hash: runs that differ only in the hash function
produce identical responses. -/
theorem C8_register_response_excludes_hash (hash : String → String)
    (new_id nowIso : String) (s : Settings) (dbC dbI : List User)
    (user : UserCreate) :
    (∀ resp db2,
        register hash new_id nowIso s dbC dbI user = .ok (resp, db2) →
        resp = ⟨new_id, user.username, user.email, nowIso⟩) ∧
    (∀ h₁ h₂ : String → String,
        Except.map Prod.fst (register h₁ new_id nowIso s dbC dbI user) =
        Except.map Prod.fst (register h₂ new_id nowIso s dbC dbI user)) := by
  constructor
  · intro resp db2 h
    unfold register create_user_in_db sqlite_insert_user at h
    cases hval : validate_username user.username with
    | error e => simp [hval] at h
    | ok v1 =>
      cases hem : validate_email_format user.email with
      | error e => simp [hval, hem] at h
      | ok v2 =>
        cases hpw : validate_password_strength s user.password with
        | error e => simp [hval, hem, hpw] at h
        | ok v3 =>
          cases hun : get_user_by_username dbC user.username with
          | some u => simp [hval, hem, hpw, hun] at h
          | none =>
            cases hue : get_user_by_email dbC user.email with
            | some u => simp [hval, hem, hpw, hun, hue] at h
            | none =>
              by_cases hc : dbI.any (fun v =>
                  v.username == user.username ||
                  v.email == user.email) = true
              · simp [hval, hem, hpw, hun, hue, hc] at h
              · simp [hval, hem, hpw, hun, hue, hc] at h
                simp_all
  · intro h₁ h₂
    unfold register create_user_in_db sqlite_insert_user
    cases hval : validate_username user.username with
    | error e => simp [hval]
    | ok v1 =>
      cases hem : validate_email_format user.email with
      | error e => simp [hval, hem]
      | ok v2 =>
        cases hpw : validate_password_strength s user.password with
        | error e => simp [hval, hem, hpw]
        | ok v3 =>
          cases hun : get_user_by_username dbC user.username with
          | some u => simp [hval, hem, hpw, hun]
          | none =>
            cases hue : get_user_by_email dbC user.email with
            | some u => simp [hval, hem, hpw, hun, hue]
            | none =>
              by_cases hc : dbI.any (fun v =>
                  v.username == user.username ||
                  v.email == user.email) = true
              · simp [hval, hem, hpw, hun, hue, hc]
              · simp [hval, hem, hpw, hun, hue, hc, Except.map]

/-- Witness for C8: registering `alice` against an empty store succeeds
and answers with exactly her id, username, email and creation time; with
a different hash function the response is the same. -/
theorem C8_register_response_excludes_hash_witness :
    (⟨"u-new", "alice", "alice@example.com", "2026-01-02T00:00:00"⟩ :
        UserResponse) =
      ⟨"u-new", aliceCreate.username, aliceCreate.email,
       "2026-01-02T00:00:00"⟩ ∧
    Except.map Prod.fst (register hash₀ "u-new" "2026-01-02T00:00:00"
        defaultSettings [] [] aliceCreate) =
      Except.map Prod.fst (register hashAlt "u-new" "2026-01-02T00:00:00"
        defaultSettings [] [] aliceCreate) :=
  ⟨(C8_register_response_excludes_hash hash₀ "u-new"
      "2026-01-02T00:00:00" defaultSettings [] [] aliceCreate).1
      ⟨"u-new", "alice", "alice@example.com", "2026-01-02T00:00:00"⟩
      [⟨"u-new", "alice", "alice@example.com", "hashed:abc12345",
        "2026-01-02T00:00:00"⟩] (by decide),
   (C8_register_response_excludes_hash hash₀ "u-new"
      "2026-01-02T00:00:00" defaultSettings [] [] aliceCreate).2
      hash₀ hashAlt⟩

/-- Counterexample to C4 as stated: with an empty store at pre-check time
but a store already holding `alice` at insert time (a concurrent
registration landing between check and insert), `register` fails with the
escaping store constraint violation (`RegError.integrity` — an unhandled
`sqlite3.IntegrityError`, surfaced to the client as a generic 500), which
is a different failure from the 400 "Username already registered" that
pre-check detection produces on the same request. -/
theorem C4_insert_race_counterexample :
    register hash₀ "u-new" "2026-01-02T00:00:00" defaultSettings []
      [aliceUser] aliceCreate = .error .integrity ∧
    register hash₀ "u-new" "2026-01-02T00:00:00" defaultSettings
      [aliceUser] [aliceUser] aliceCreate =
      .error (.http ⟨400, "Username already registered"⟩) ∧
    (Except.error RegError.integrity :
        Except RegError (UserResponse × List User)) ≠
      .error (.http ⟨400, "Username already registered"⟩) :=
  ⟨by decide, by decide, by decide⟩

/-- Claim C4 (amended): when the store's unique constraint rejects the
insert — the pre-checks passed but the store changed in between — no
duplicate row is created and `register` fails, but the failure is the
escaping constraint violation `RegError.integrity`, not the pre-check's
400 uniqueness error; and a registration only succeeds when the constraint
holds at insert time, appending exactly one fresh row. -/
theorem C4_insert_constraint_no_duplicate (hash : String → String)
    (new_id nowIso : String) (s : Settings) (dbC dbI : List User)
    (user : UserCreate)
    (h1 : validate_username user.username = .ok ())
    (h2 : validate_email_format user.email = .ok ())
    (h3 : validate_password_strength s user.password = .ok ())
    (h4 : get_user_by_username dbC user.username = none)
    (h5 : get_user_by_email dbC user.email = none) :
    (dbI.any (fun v => v.username == user.username ||
        v.email == user.email) = true →
      register hash new_id nowIso s dbC dbI user = .error .integrity) ∧
    (∀ resp db2,
      register hash new_id nowIso s dbC dbI user = .ok (resp, db2) →
      dbI.any (fun v => v.username == user.username ||
        v.email == user.email) = false ∧
      db2 = dbI ++ [⟨new_id, user.username, user.email,
                     hash user.password, nowIso⟩]) := by
  constructor
  · intro hc
    unfold register create_user_in_db sqlite_insert_user
    simp [h1, h2, h3, h4, h5, hc]
  · intro resp db2 h
    unfold register create_user_in_db sqlite_insert_user at h
    simp only [h1, h2, h3, h4, h5] at h
    by_cases hc : dbI.any (fun v => v.username == user.username ||
        v.email == user.email) = true
    · simp [hc] at h
    · simp [hc] at h
      exact ⟨Bool.eq_false_iff.mpr hc, h.2.symm⟩

/-- Witness for the amended C4 at the counterexample's concrete race. -/
theorem C4_insert_constraint_no_duplicate_witness :
    register hash₀ "u-new" "2026-01-02T00:00:00" defaultSettings []
      [aliceUser] aliceCreate = .error .integrity :=
  (C4_insert_constraint_no_duplicate hash₀ "u-new" "2026-01-02T00:00:00"
    defaultSettings [] [aliceUser] aliceCreate (by decide) (by decide)
    (by decide) (by decide) (by decide)).1 (by decide)

end TodoApi
